import Mathlib

/-!
Verification of the digital-business-card backend (`src/main.py`,
`src/schemas.py`) against its specification.

The document store (MongoDB accessed through `db["user"]`, `db["profile"]`,
`db["sociallink"]`) is modelled as three Lean lists of structures, one per
collection.  `find_one` with an equality filter is `List.find?`, `find` is
`List.filter`, `insert_one` appends, `update_one` rewrites the first matching
document, `delete_one` removes the first matching document and `delete_many`
filters.  BSON `ObjectId` construction from a string (which raises on a string
that is not 24 hex characters, and normalises hex digits to lower case) is
`objectId`.  Timestamps (`datetime.now`) are an explicit `Nat` argument, and
the `_id` generated by an insert is an explicit `String` argument.  Handler
outcomes distinguish a normal return, a raised `HTTPException`, and an
uncaught Python exception (which the transport surfaces as a 5xx).
-/

namespace DBC

/-- A hex digit as accepted by `bson.ObjectId` (both cases). -/
def isHexChar (c : Char) : Bool :=
  (('0' ≤ c) && (c ≤ '9')) || (('a' ≤ c) && (c ≤ 'f')) || (('A' ≤ c) && (c ≤ 'F'))

/-- Validity of a BSON object id: `ObjectId` accepts exactly 24-character hex strings. -/
def isValidObjectId (s : String) : Bool :=
  s.length == 24 && s.data.all isHexChar

/-- Character-wise lower-casing, the Python lower() on a hex string. -/
def lowerStr (s : String) : String :=
  ⟨s.data.map Char.toLower⟩

/-- Construction `ObjectId(s)`: `none` models the raised `bson.errors.InvalidId`; on
success the id is normalised to its canonical lower-case form, which is also
what `str(ObjectId(...))` yields for stored string foreign keys. -/
def objectId (s : String) : Option String :=
  if isValidObjectId s then some (lowerStr s) else none

/-- An uncaught Python exception escaping a handler. -/
inductive PyError where
  | invalidObjectId (s : String)
  | attributeError
deriving Repr, DecidableEq

/-- Result of a handler: normal value, raised `HTTPException status detail`,
or an uncaught Python exception (surfaced by the transport as a 5xx). -/
inductive Outcome (α : Type) where
  | ok (a : α)
  | httpError (status : Nat) (detail : String)
  | raised (e : PyError)
deriving Repr, DecidableEq

/-- A document of the `user` collection (fields per `schemas.User` plus the
timestamps written by `ensure_demo_user` / `admin_update_user`). -/
structure UserDoc where
  oid : String
  name : String
  email : String
  password_hash : String
  is_admin : Bool
  profile_slug : Option String
  created_at : Nat
  updated_at : Nat
deriving Repr, DecidableEq

/-- A document of the `profile` collection (fields per `schemas.Profile`;
a field a partial update never wrote is absent, i.e. `none`). -/
structure ProfileDoc where
  oid : String
  user_id : String
  job_title : Option String
  company : Option String
  phone_number : Option String
  bio : Option String
  profile_image_path : Option String
  created_at : Nat
  updated_at : Nat
deriving Repr, DecidableEq

/-- A document of the `sociallink` collection (fields per `schemas.SocialLink`). -/
structure SocialLinkDoc where
  oid : String
  user_id : String
  platform : String
  url : String
deriving Repr, DecidableEq

/-- The three collections of the document store. -/
structure Store where
  users : List UserDoc
  profiles : List ProfileDoc
  sociallinks : List SocialLinkDoc
deriving Repr, DecidableEq

/-- Shape of `serialize_user` (`main.py` lines 90-97): the public serialization,
excluding the password hash. -/
structure SerializedUser where
  id : String
  name : String
  email : String
  is_admin : Bool
  profile_slug : Option String
deriving Repr, DecidableEq

def serialize_user (u : UserDoc) : SerializedUser :=
  { id := u.oid
    name := u.name
    email := u.email
    is_admin := u.is_admin
    profile_slug := u.profile_slug }

/-- The `profile` part of a bundle: `profile.get(k) if profile else None`
for each of the five fields. -/
structure BundleProfile where
  job_title : Option String
  company : Option String
  phone_number : Option String
  bio : Option String
  profile_image_path : Option String
deriving Repr, DecidableEq

/-- A serialized social link inside a bundle. -/
structure BundleLink where
  id : String
  platform : String
  url : String
deriving Repr, DecidableEq

/-- The composite returned by `fetch_profile_bundle_by_slug`. -/
structure ProfileBundle where
  user : SerializedUser
  profile : BundleProfile
  social_links : List BundleLink
deriving Repr, DecidableEq

/-- Assembler `fetch_profile_bundle_by_slug` (`main.py` lines 100-117): find the user by
slug (`none` when absent), join its profile (all fields `none` when there is
no profile document) and its social links. -/
def fetch_profile_bundle_by_slug (store : Store) (slug : String) : Option ProfileBundle :=
  match store.users.find? (fun u => u.profile_slug == some slug) with
  | none => none
  | some user =>
    let uid := user.oid
    let profile := store.profiles.find? (fun p => p.user_id == uid)
    let links := store.sociallinks.filter (fun l => l.user_id == uid)
    some
      { user := serialize_user user
        profile :=
          { job_title := profile.bind (fun p => p.job_title)
            company := profile.bind (fun p => p.company)
            phone_number := profile.bind (fun p => p.phone_number)
            bio := profile.bind (fun p => p.bio)
            profile_image_path := profile.bind (fun p => p.profile_image_path) }
        social_links := links.map (fun l => { id := l.oid, platform := l.platform, url := l.url }) }

/-- Python truthiness of an optional string: `None` and `""` are falsy. -/
def pyTruthy (s : Option String) : Bool :=
  match s with
  | none => false
  | some t => !(t == "")

/-- Python "x or empty-string" applied to a `.get` with empty-string default
where the key is always present: `None` and `""` both become `""`. -/
def orEmpty (s : Option String) : String :=
  match s with
  | none => ""
  | some t => t

/-- The vCard 3.0 lines built by `get_vcard` (`main.py` lines 142-158). -/
def vcard_lines (bundle : ProfileBundle) : List String :=
  let base : List String :=
    [ "BEGIN:VCARD"
      , "VERSION:3.0"
      , "N:" ++ bundle.user.name ++ ";"
      , "FN:" ++ bundle.user.name
      , "ORG:" ++ orEmpty bundle.profile.company
      , "TITLE:" ++ orEmpty bundle.profile.job_title ]
  let withTel :=
    if pyTruthy bundle.profile.phone_number then
      base ++ ["TEL;TYPE=CELL:" ++ orEmpty bundle.profile.phone_number]
    else base
  let withEmail :=
    if !(bundle.user.email == "") then
      withTel ++ ["EMAIL;TYPE=INTERNET:" ++ bundle.user.email]
    else withTel
  let firstWebsite := bundle.social_links.find?
    (fun l => l.platform == "website" || l.platform == "link" || l.platform == "url")
  let withUrl :=
    match firstWebsite with
    | some l => withEmail ++ ["URL:" ++ l.url]
    | none => withEmail
  withUrl ++ ["END:VCARD"]

/-- Joining the lines with CRLF (`main.py` line 159). -/
def vcard_text (bundle : ProfileBundle) : String :=
  String.intercalate "\r\n" (vcard_lines bundle)

/-- Python replace of every space by an underscore: the pattern is a single
character, so the replacement is a character map. -/
def replaceSpaces (s : String) : String :=
  ⟨s.data.map (fun c => if c = ' ' then '_' else c)⟩

/-- The suggested filename (`main.py` line 160).  The serialized user always
carries the key `name` (set by `serialize_user`), so the "contact" default
of `.get` never applies; the filename is the name with each space replaced by
an underscore, suffixed `.vcf`. -/
def vcard_filename (bundle : ProfileBundle) : String :=
  replaceSpaces bundle.user.name ++ ".vcf"

/-- The payload of the `/api/p/{slug}/vcf` response: vCard text plus the
filename of the `Content-Disposition` header. -/
structure VcardResponse where
  text : String
  filename : String
deriving Repr, DecidableEq

/-- Handler `get_vcard` (`main.py` lines 134-163). -/
def get_vcard (store : Store) (slug : String) : Outcome VcardResponse :=
  match fetch_profile_bundle_by_slug store slug with
  | none => Outcome.httpError 404 "Profile not found"
  | some bundle => Outcome.ok { text := vcard_text bundle, filename := vcard_filename bundle }

/-- Model of `update_one` with an equality filter: rewrite the first matching document
(Mongo updates at most one, the first match in natural order). -/
def updateFirst {α : Type} (q : α → Bool) (f : α → α) : List α → List α
  | [] => []
  | a :: as => if q a then f a :: as else a :: updateFirst q f as

/-- Model of `delete_one` with an equality filter, keeping track of `deleted_count`:
`none` when nothing matched, otherwise the list without the first match. -/
def deleteFirst {α : Type} (q : α → Bool) : List α → Option (List α)
  | [] => none
  | a :: as => if q a then some as else (deleteFirst q as).map (fun l => a :: l)

/-- Model of `delete_one` when the caller ignores `deleted_count`. -/
def deleteOne {α : Type} (q : α → Bool) : List α → List α
  | [] => []
  | a :: as => if q a then as else a :: deleteOne q as

/-- Payload `ProfileUpdate` (`main.py` lines 70-74): all four fields optional; a field
the client omits and a field sent as `null` are both `none` after
`model_dump()`. -/
structure ProfileUpdate where
  job_title : Option String
  company : Option String
  phone_number : Option String
  bio : Option String
deriving Repr, DecidableEq

/-- One key of the `$set` document: a field present in `update_doc`
(payload value not `None`) overwrites, an absent key leaves the stored value. -/
def setField (new : Option String) (old : Option String) : Option String :=
  match new with
  | some v => some v
  | none => old

/-- Effect of `update_one({"_id": ...}, {"$set": update_doc})` on a profile
document: the non-`None` payload fields overwrite, `updated_at` is set. -/
def applySet (payload : ProfileUpdate) (now : Nat) (p : ProfileDoc) : ProfileDoc :=
  { p with
    job_title := setField payload.job_title p.job_title
    company := setField payload.company p.company
    phone_number := setField payload.phone_number p.phone_number
    bio := setField payload.bio p.bio
    updated_at := now }

/-- The document inserted on first write (`main.py` lines 196-197): the
non-`None` payload fields, `updated_at`, `user_id` and `created_at`; keys the
payload left `None` are absent from the document. -/
def newProfile (uid : String) (payload : ProfileUpdate) (now : Nat) (freshId : String) : ProfileDoc :=
  { oid := freshId
    user_id := uid
    job_title := payload.job_title
    company := payload.company
    phone_number := payload.phone_number
    bio := payload.bio
    profile_image_path := none
    created_at := now
    updated_at := now }

/-- Handler `update_profile` (`main.py` lines 186-198): look up the acting user's
profile by `user_id`; `$set` the provided fields on it when it exists,
otherwise insert a fresh document.  The HTTP response is the constant
`{"status": "ok"}`, so only the store is modelled. -/
def update_profile (store : Store) (uid : String) (payload : ProfileUpdate)
    (now : Nat) (freshId : String) : Store :=
  match store.profiles.find? (fun p => p.user_id == uid) with
  | some existing =>
    { store with
      profiles := updateFirst (fun p => p.oid == existing.oid) (applySet payload now) store.profiles }
  | none =>
    { store with profiles := store.profiles ++ [newProfile uid payload now freshId] }

/-- Handler `delete_social_link` (`main.py` lines 214-221): `ObjectId(sid)` is not
guarded by a try/except, so an invalid id escapes as an uncaught exception;
a missing link and a link owned by another user both raise 404 `"Not found"`;
otherwise the link is deleted. -/
def delete_social_link (sid : String) (uid : String) (s : Store) : Outcome String × Store :=
  match objectId sid with
  | none => (Outcome.raised (PyError.invalidObjectId sid), s)
  | some oid =>
    match s.sociallinks.find? (fun l => l.oid == oid) with
    | none => (Outcome.httpError 404 "Not found", s)
    | some doc =>
      if doc.user_id == uid then
        (Outcome.ok "deleted", { s with sociallinks := deleteOne (fun l => l.oid == oid) s.sociallinks })
      else
        (Outcome.httpError 404 "Not found", s)

/-- Handler `admin_get_user` (`main.py` lines 237-245).  The try/except catches every
exception of the lookup — an invalid `ObjectId(uid)` as well as a store
failure, modelled by `storeExc` — and sets `doc = None`, so both fall into
the 404 branch.  `storeExc = some msg` means the store call raised `msg`. -/
def admin_get_user (uid : String) (s : Store) (storeExc : Option String) : Outcome SerializedUser :=
  let doc : Option UserDoc :=
    match objectId uid with
    | none => none
    | some oid =>
      match storeExc with
      | some _ => none
      | none => s.users.find? (fun u => u.oid == oid)
  match doc with
  | none => Outcome.httpError 404 "User not found"
  | some d => Outcome.ok (serialize_user d)

/-- Payload `AdminUserUpdate` (`main.py` lines 80-84). -/
structure AdminUserUpdate where
  name : Option String
  email : Option String
  is_admin : Option Bool
  profile_slug : Option String
deriving Repr, DecidableEq

/-- Emptiness of the update document after dropping the `None` fields: the payload provided
no field. -/
def AdminUserUpdate.allNone (p : AdminUserUpdate) : Bool :=
  p.name.isNone && p.email.isNone && p.is_admin.isNone && p.profile_slug.isNone

/-- Effect of the admin `$set` on a user document. -/
def applyAdminSet (payload : AdminUserUpdate) (now : Nat) (u : UserDoc) : UserDoc :=
  { u with
    name := payload.name.getD u.name
    email := payload.email.getD u.email
    is_admin := payload.is_admin.getD u.is_admin
    profile_slug :=
      match payload.profile_slug with
      | some v => some v
      | none => u.profile_slug
    updated_at := now }

/-- The body returned by `admin_update_user`. -/
inductive AdminUpdateView where
  | noChanges
  | updated (u : SerializedUser)
deriving Repr, DecidableEq

/-- Handler `admin_update_user` (`main.py` lines 247-260): an all-`None` payload
returns `{"status": "no_changes"}` before any id parsing or store call; an
invalid id raises 400; `matched_count == 0` raises 404; otherwise the first
matching user is rewritten and re-read.  The final `find_one` cannot miss
because the update preserves `_id`; were it to return `None`,
`serialize_user(None)` would raise, modelled by the `raised` branch. -/
def admin_update_user (uid : String) (payload : AdminUserUpdate) (now : Nat)
    (s : Store) : Outcome AdminUpdateView × Store :=
  if payload.allNone then (Outcome.ok AdminUpdateView.noChanges, s)
  else
    match objectId uid with
    | none => (Outcome.httpError 400 "Invalid user id", s)
    | some oid =>
      match s.users.find? (fun u => u.oid == oid) with
      | none => (Outcome.httpError 404 "User not found", s)
      | some _ =>
        let users' := updateFirst (fun u => u.oid == oid) (applyAdminSet payload now) s.users
        match users'.find? (fun u => u.oid == oid) with
        | some d => (Outcome.ok (AdminUpdateView.updated (serialize_user d)), { s with users := users' })
        | none => (Outcome.raised PyError.attributeError, { s with users := users' })

/-- Handler `admin_delete_user` (`main.py` lines 262-273): an invalid id raises 400;
`deleted_count == 0` raises 404; on success the user's profiles and social
links are removed by `delete_many({"user_id": uid})` with the raw path id. -/
def admin_delete_user (uid : String) (s : Store) : Outcome String × Store :=
  match objectId uid with
  | none => (Outcome.httpError 400 "Invalid user id", s)
  | some oid =>
    match deleteFirst (fun u => u.oid == oid) s.users with
    | none => (Outcome.httpError 404 "User not found", s)
    | some users' =>
      (Outcome.ok "deleted",
        { users := users'
          profiles := s.profiles.filter (fun p => !(p.user_id == uid))
          sociallinks := s.sociallinks.filter (fun l => !(l.user_id == uid)) })

/-! ### Helper lemmas -/

theorem setField_setField (o y : Option String) :
    setField o (setField o y) = setField o y := by
  cases o <;> rfl

theorem setField_none (y : Option String) : setField none y = y := rfl

@[simp] theorem applySet_oid (payload : ProfileUpdate) (now : Nat) (p : ProfileDoc) :
    (applySet payload now p).oid = p.oid := rfl

@[simp] theorem applySet_user_id (payload : ProfileUpdate) (now : Nat) (p : ProfileDoc) :
    (applySet payload now p).user_id = p.user_id := rfl

theorem applySet_applySet (payload : ProfileUpdate) (t1 t2 : Nat) (p : ProfileDoc) :
    applySet payload t2 (applySet payload t1 p) = applySet payload t2 p := by
  simp [applySet, setField_setField]

/-- Composing two first-match rewrites whose predicate the first rewrite does
not disturb. -/
theorem updateFirst_updateFirst {α : Type} (q : α → Bool) (g1 g2 : α → α)
    (hq : ∀ a, q (g1 a) = q a) (l : List α) :
    updateFirst q g2 (updateFirst q g1 l) = updateFirst q (fun a => g2 (g1 a)) l := by
  induction l with
  | nil => rfl
  | cons a as ih =>
    by_cases ha : q a = true
    · simp [updateFirst, ha, hq a]
    · simp [updateFirst, ha, hq a, ih]

/-- Rewriting, by `_id`, the first profile matching a `user_id` lookup leaves
that rewritten document as the first `user_id` match, provided `_id`s are
unique (a store invariant) and the rewrite keeps `user_id` and `_id`. -/
theorem find?_updateFirst_profile (uid : String) (g : ProfileDoc → ProfileDoc)
    (hg_user : ∀ p, (g p).user_id = p.user_id)
    (l : List ProfileDoc) (old : ProfileDoc)
    (hnd : (l.map (fun p => p.oid)).Nodup)
    (h : l.find? (fun p => p.user_id == uid) = some old) :
    (updateFirst (fun p => p.oid == old.oid) g l).find? (fun p => p.user_id == uid)
      = some (g old) := by
  induction l with
  | nil => simp at h
  | cons a as ih =>
    rw [List.map_cons, List.nodup_cons] at hnd
    by_cases ha : (a.user_id == uid) = true
    · rw [List.find?_cons_of_pos (p := fun x : ProfileDoc => x.user_id == uid) _ ha] at h
      have haold : a = old := by injection h
      subst haold
      have hupd : updateFirst (fun p => p.oid == a.oid) g (a :: as) = g a :: as := by
        simp [updateFirst]
      rw [hupd]
      have hga : ((g a).user_id == uid) = true := by rw [hg_user]; exact ha
      exact List.find?_cons_of_pos (p := fun x : ProfileDoc => x.user_id == uid) _ hga
    · rw [List.find?_cons_of_neg (p := fun x : ProfileDoc => x.user_id == uid) _ ha] at h
      have hmem : old ∈ as := List.mem_of_find?_eq_some h
      have hne : (a.oid == old.oid) = false := by
        refine beq_false_of_ne ?_
        intro hcontra
        exact hnd.1 (List.mem_map.mpr ⟨old, hmem, hcontra.symm⟩)
      have hupd : updateFirst (fun p => p.oid == old.oid) g (a :: as)
          = a :: updateFirst (fun p => p.oid == old.oid) g as := by
        simp [updateFirst, hne]
      rw [hupd, List.find?_cons_of_neg (p := fun x : ProfileDoc => x.user_id == uid) _ ha]
      exact ih hnd.2 h

/-- What the first `user_id` match looks like after `update_profile`:
the rewritten existing document, or the freshly inserted one. -/
theorem update_profile_profiles_find? (s : Store) (uid : String) (payload : ProfileUpdate)
    (now : Nat) (fid : String)
    (hnd : (s.profiles.map (fun p => p.oid)).Nodup) :
    (update_profile s uid payload now fid).profiles.find? (fun p => p.user_id == uid)
      = some (match s.profiles.find? (fun p => p.user_id == uid) with
              | some old => applySet payload now old
              | none => newProfile uid payload now fid) := by
  cases h : s.profiles.find? (fun p => p.user_id == uid) with
  | some old =>
    unfold update_profile
    rw [h]
    exact find?_updateFirst_profile uid (applySet payload now)
      (applySet_user_id payload now) s.profiles old hnd h
  | none =>
    unfold update_profile
    rw [h]
    show (s.profiles ++ [newProfile uid payload now fid]).find? (fun p => p.user_id == uid)
      = some (newProfile uid payload now fid)
    rw [List.find?_append, h]
    simp [newProfile]

/-! ### Concrete fixtures used by closed theorems and witnesses -/

def uidA : String := "aaaaaaaaaaaaaaaaaaaaaaaa"

def uidB : String := "bbbbbbbbbbbbbbbbbbbbbbbb"

def janeUser : UserDoc :=
  { oid := uidA, name := "Jane Doe", email := "jane@acme.com", password_hash := "h"
    is_admin := false, profile_slug := some "jane", created_at := 0, updated_at := 0 }

def janeProfile : ProfileDoc :=
  { oid := "cccccccccccccccccccccc01", user_id := uidA, job_title := some "Engineer"
    company := some "Acme", phone_number := some "+1 555", bio := none
    profile_image_path := none, created_at := 0, updated_at := 0 }

def janeLink : SocialLinkDoc :=
  { oid := "cccccccccccccccccccccc02", user_id := uidA, platform := "website"
    url := "https://j.example" }

def janeStore : Store :=
  { users := [janeUser], profiles := [janeProfile], sociallinks := [janeLink] }

def nopUser : UserDoc :=
  { oid := uidB, name := "No Profile", email := "np@x.com", password_hash := "h"
    is_admin := false, profile_slug := some "nop", created_at := 0, updated_at := 0 }

def noProfileStore : Store :=
  { users := [nopUser], profiles := [], sociallinks := [] }

def emptyNameBundle : ProfileBundle :=
  { user := { id := uidA, name := "", email := "", is_admin := false, profile_slug := none }
    profile := { job_title := none, company := none, phone_number := none, bio := none
                 profile_image_path := none }
    social_links := [] }

def otherLinkStore : Store :=
  { users := [], profiles := []
    sociallinks := [{ oid := "cccccccccccccccccccccc03", user_id := "owner"
                      platform := "github", url := "https://g.example" }] }

def userB : UserDoc :=
  { oid := uidB, name := "Bee", email := "b@x.com", password_hash := "h"
    is_admin := false, profile_slug := none, created_at := 0, updated_at := 0 }

def cascadeStore : Store :=
  { users := [janeUser, userB]
    profiles := [janeProfile,
                 { oid := "cccccccccccccccccccccc04", user_id := uidB, job_title := none
                   company := none, phone_number := none, bio := none
                   profile_image_path := none, created_at := 0, updated_at := 0 }]
    sociallinks := [janeLink,
                    { oid := "cccccccccccccccccccccc05", user_id := uidB
                      platform := "github", url := "https://g.example" }] }

/-! ### Claims -/

/-- Claim C1: for the profile bundle of a user named "Jane Doe" with email
"jane@acme.com", company "Acme", job title "Engineer", phone "+1 555" and the
single social link (platform "website", url "https://j.example"), the vCard
endpoint produces exactly the ten lines BEGIN:VCARD / VERSION:3.0 /
N:Jane Doe; / FN:Jane Doe / ORG:Acme / TITLE:Engineer / TEL;TYPE=CELL:+1 555 /
EMAIL;TYPE=INTERNET:jane@acme.com / URL:https://j.example / END:VCARD joined
by CRLF, with suggested filename "Jane_Doe.vcf". -/
theorem vcard_jane_output :
    get_vcard janeStore "jane"
      = Outcome.ok
          { text := String.intercalate "\r\n"
              [ "BEGIN:VCARD", "VERSION:3.0", "N:Jane Doe;", "FN:Jane Doe", "ORG:Acme"
                , "TITLE:Engineer", "TEL;TYPE=CELL:+1 555", "EMAIL;TYPE=INTERNET:jane@acme.com"
                , "URL:https://j.example", "END:VCARD" ]
            filename := "Jane_Doe.vcf" } := by
  rfl

/-- Claim C4, counterexample: a store exception during the admin single-user
GET lookup is answered with 404 "User not found", not with the 400 Invalid
Input response the claim asserts. -/
theorem admin_get_user_store_exception_counterexample :
    admin_get_user uidA janeStore (some "network down")
        = Outcome.httpError 404 "User not found"
    ∧ admin_get_user uidA janeStore (some "network down")
        ≠ Outcome.httpError 400 "Invalid user id" := by
  constructor <;> decide

/-- Claim C4, amended: on GET /api/admin/users/(uid), any exception raised
during the id lookup — an invalid id or a store failure — is caught and
collapses to 404 Not Found, indistinguishable from an unknown id; the
exception-to-400 collapse belongs to the admin update and delete routes,
not to the single-user GET. -/
theorem admin_get_user_store_exception_404 (uid : String) (s : Store) (msg : String) :
    admin_get_user uid s (some msg) = Outcome.httpError 404 "User not found" := by
  unfold admin_get_user
  cases objectId uid <;> rfl

/-- Claim C5, counterexample: for a bundle whose user name is the empty
string, the suggested filename is ".vcf", not the "contact.vcf" fallback the
claim asserts (the "contact" default of `.get` is dead: `serialize_user`
always emits the `name` key). -/
theorem vcard_filename_empty_name_counterexample :
    vcard_filename emptyNameBundle = ".vcf"
    ∧ vcard_filename emptyNameBundle ≠ "contact.vcf" := by
  constructor <;> decide

/-- Claim C5, amended: for every bundle served by the vCard endpoint, the
suggested filename is the user's display name with every space replaced by an
underscore, suffixed ".vcf" — including for the empty name, which yields
".vcf" rather than "contact.vcf". -/
theorem get_vcard_filename_underscores (s : Store) (slug : String) (u : UserDoc)
    (hu : s.users.find? (fun x => x.profile_slug == some slug) = some u) :
    ∃ r, get_vcard s slug = Outcome.ok r ∧ r.filename = replaceSpaces u.name ++ ".vcf" := by
  unfold get_vcard fetch_profile_bundle_by_slug
  rw [hu]
  exact ⟨_, rfl, rfl⟩

/-- Witness for the amended C5 theorem at the Jane fixture. -/
theorem get_vcard_filename_underscores_witness :
    ∃ r, get_vcard janeStore "jane" = Outcome.ok r
      ∧ r.filename = replaceSpaces janeUser.name ++ ".vcf" :=
  get_vcard_filename_underscores janeStore "jane" janeUser (by decide)

/-- Claim C8: when the slug resolves to a user that has no profile document,
the bundle assembler returns a bundle (no error) whose five profile fields
are all null. -/
theorem fetch_bundle_missing_profile_null (s : Store) (slug : String) (u : UserDoc)
    (hu : s.users.find? (fun x => x.profile_slug == some slug) = some u)
    (hp : s.profiles.find? (fun p => p.user_id == u.oid) = none) :
    ∃ b, fetch_profile_bundle_by_slug s slug = some b
      ∧ b.profile.job_title = none ∧ b.profile.company = none
      ∧ b.profile.phone_number = none ∧ b.profile.bio = none
      ∧ b.profile.profile_image_path = none := by
  unfold fetch_profile_bundle_by_slug
  rw [hu]
  refine ⟨_, rfl, ?_, ?_, ?_, ?_, ?_⟩ <;> simp [hp]

/-- Witness for C8 at a store holding one user and no profiles. -/
theorem fetch_bundle_missing_profile_null_witness :
    ∃ b, fetch_profile_bundle_by_slug noProfileStore "nop" = some b
      ∧ b.profile.job_title = none ∧ b.profile.company = none
      ∧ b.profile.phone_number = none ∧ b.profile.bio = none
      ∧ b.profile.profile_image_path = none :=
  fetch_bundle_missing_profile_null noProfileStore "nop" nopUser (by decide) (by decide)

/-- Claim C9: an admin user update whose payload provides no field returns
the "no_changes" status without touching the store, whatever the id — known,
unknown or malformed. -/
theorem admin_update_user_empty_payload_noop (uid : String) (payload : AdminUserUpdate)
    (now : Nat) (s : Store) (h : payload.allNone = true) :
    admin_update_user uid payload now s = (Outcome.ok AdminUpdateView.noChanges, s) := by
  unfold admin_update_user
  rw [h]
  rfl

/-- Witness for C9 with a malformed id. -/
theorem admin_update_user_empty_payload_noop_witness :
    admin_update_user "not-an-objectid"
        { name := none, email := none, is_admin := none, profile_slug := none } 7 janeStore
      = (Outcome.ok AdminUpdateView.noChanges, janeStore) :=
  admin_update_user_empty_payload_noop "not-an-objectid"
    { name := none, email := none, is_admin := none, profile_slug := none } 7 janeStore
    (by decide)

/-- Claim C10: deleting a social link under an id that is not a syntactically
valid `ObjectId` raises an uncaught exception (a 5xx at the transport), never
the 404 response — while the admin delete route catches the same failure and
answers 400. -/
theorem delete_social_link_invalid_id_raises (sid uid : String) (s : Store)
    (h : isValidObjectId sid = false) :
    delete_social_link sid uid s = (Outcome.raised (PyError.invalidObjectId sid), s)
    ∧ (delete_social_link sid uid s).1 ≠ Outcome.httpError 404 "Not found"
    ∧ admin_delete_user sid s = (Outcome.httpError 400 "Invalid user id", s) := by
  have hobj : objectId sid = none := by simp [objectId, h]
  refine ⟨?_, ?_, ?_⟩ <;> simp [delete_social_link, admin_delete_user, hobj]

/-- Witness for C10 at a malformed id. -/
theorem delete_social_link_invalid_id_raises_witness :
    delete_social_link "zzz" uidA janeStore
        = (Outcome.raised (PyError.invalidObjectId "zzz"), janeStore)
    ∧ (delete_social_link "zzz" uidA janeStore).1 ≠ Outcome.httpError 404 "Not found"
    ∧ admin_delete_user "zzz" janeStore = (Outcome.httpError 400 "Invalid user id", janeStore) :=
  delete_social_link_invalid_id_raises "zzz" uidA janeStore (by decide)

/-- Claim C7: under a well-formed link id, a link owned by another user and a
link id absent from the store get the very same 404 "Not found" response, and
in both cases the store is left untouched (no 403, no deletion). -/
theorem delete_social_link_not_found_uniform (sid uid : String) (s : Store)
    (hvalid : isValidObjectId sid = true)
    (hown : (s.sociallinks.find? (fun l => l.oid == lowerStr sid)).all
        (fun doc => !(doc.user_id == uid)) = true) :
    delete_social_link sid uid s = (Outcome.httpError 404 "Not found", s) := by
  have hobj : objectId sid = some (lowerStr sid) := by simp [objectId, hvalid]
  unfold delete_social_link
  rw [hobj]
  simp only
  cases hf : s.sociallinks.find? (fun l => l.oid == lowerStr sid) with
  | none => rfl
  | some doc =>
    rw [hf] at hown
    simp only [Option.all_some, Bool.not_eq_true'] at hown
    simp [hown]

/-- Witness for C7: deleting a link of another user answers exactly like a
missing link and deletes nothing. -/
theorem delete_social_link_not_found_uniform_witness :
    delete_social_link "cccccccccccccccccccccc03" "intruder" otherLinkStore
      = (Outcome.httpError 404 "Not found", otherLinkStore) :=
  delete_social_link_not_found_uniform "cccccccccccccccccccccc03" "intruder" otherLinkStore
    (by decide) (by decide)

/-- Claim C6: when the admin delete succeeds, a profile or social link
survives it exactly when it was already stored and belongs to a different
user id — the deleted user's dependents are all gone and every other user's
documents are untouched. -/
theorem admin_delete_user_cascade (uid : String) (s : Store)
    (h : (admin_delete_user uid s).1 = Outcome.ok "deleted") :
    (∀ p : ProfileDoc,
        p ∈ (admin_delete_user uid s).2.profiles ↔ p ∈ s.profiles ∧ p.user_id ≠ uid)
    ∧ (∀ l : SocialLinkDoc,
        l ∈ (admin_delete_user uid s).2.sociallinks ↔ l ∈ s.sociallinks ∧ l.user_id ≠ uid) := by
  unfold admin_delete_user at h ⊢
  cases ho : objectId uid with
  | none => rw [ho] at h; simp at h
  | some oid =>
    rw [ho] at h
    simp only at h ⊢
    cases hd : deleteFirst (fun u => u.oid == oid) s.users with
    | none => rw [hd] at h; simp at h
    | some users' =>
      constructor
      · intro p; simp [List.mem_filter]
      · intro l; simp [List.mem_filter]

/-- Witness for C6 at a two-user store with profiles and links on each side. -/
theorem admin_delete_user_cascade_witness :
    (∀ p : ProfileDoc,
        p ∈ (admin_delete_user uidA cascadeStore).2.profiles
          ↔ p ∈ cascadeStore.profiles ∧ p.user_id ≠ uidA)
    ∧ (∀ l : SocialLinkDoc,
        l ∈ (admin_delete_user uidA cascadeStore).2.sociallinks
          ↔ l ∈ cascadeStore.sociallinks ∧ l.user_id ≠ uidA) :=
  admin_delete_user_cascade uidA cascadeStore (by decide)

/-- Reduction of `update_profile` on a store whose first profile match for the user is
known rewrites exactly that document in place. -/
theorem update_profile_eq_of_find? (s : Store) (uid : String) (payload : ProfileUpdate)
    (now : Nat) (fid : String) (old : ProfileDoc)
    (h : s.profiles.find? (fun p => p.user_id == uid) = some old) :
    update_profile s uid payload now fid
      = { s with profiles :=
            updateFirst (fun p => p.oid == old.oid) (applySet payload now) s.profiles } := by
  unfold update_profile
  rw [h]

/-- Claim C2: on a store that already holds a profile for the user, applying
the same partial update a second time changes nothing (whatever timestamps
the two calls see), and every field the payload leaves out — including
`profile_image_path`, which the payload cannot carry — keeps its stored
value. -/
theorem update_profile_idempotent_frame (s : Store) (uid : String) (payload : ProfileUpdate)
    (t1 t2 : Nat) (f1 f2 : String) (old : ProfileDoc)
    (hnd : (s.profiles.map (fun p => p.oid)).Nodup)
    (hfind : s.profiles.find? (fun p => p.user_id == uid) = some old) :
    update_profile (update_profile s uid payload t1 f1) uid payload t2 f2
      = update_profile s uid payload t2 f2
    ∧ ∃ p', (update_profile s uid payload t1 f1).profiles.find?
          (fun p => p.user_id == uid) = some p'
        ∧ (payload.job_title = none → p'.job_title = old.job_title)
        ∧ (payload.company = none → p'.company = old.company)
        ∧ (payload.phone_number = none → p'.phone_number = old.phone_number)
        ∧ (payload.bio = none → p'.bio = old.bio)
        ∧ p'.profile_image_path = old.profile_image_path := by
  have hfind1 : (update_profile s uid payload t1 f1).profiles.find?
      (fun p => p.user_id == uid) = some (applySet payload t1 old) := by
    have hc := update_profile_profiles_find? s uid payload t1 f1 hnd
    rw [hfind] at hc
    exact hc
  constructor
  · rw [update_profile_eq_of_find? (update_profile s uid payload t1 f1) uid payload t2 f2
        (applySet payload t1 old) hfind1,
      update_profile_eq_of_find? s uid payload t1 f1 old hfind,
      update_profile_eq_of_find? s uid payload t2 f2 old hfind]
    have hq : ∀ a : ProfileDoc,
        ((fun p : ProfileDoc => p.oid == old.oid) (applySet payload t1 a))
          = ((fun p : ProfileDoc => p.oid == old.oid) a) := fun a => rfl
    simp only [applySet_oid]
    refine congrArg (fun l => Store.mk s.users l s.sociallinks) ?_
    rw [updateFirst_updateFirst _ _ _ hq]
    have hcomp : (fun a => applySet payload t2 (applySet payload t1 a)) = applySet payload t2 :=
      funext (applySet_applySet payload t1 t2)
    rw [hcomp]
  · refine ⟨applySet payload t1 old, hfind1, ?_, ?_, ?_, ?_, rfl⟩ <;>
      (intro hnone; simp [applySet, setField, hnone])

/-- Witness for C2: a one-field update on the Jane fixture. -/
theorem update_profile_idempotent_frame_witness :
    update_profile (update_profile janeStore uidA
          { job_title := none, company := some "NewCo", phone_number := none, bio := none } 3
          "cccccccccccccccccccccc06") uidA
        { job_title := none, company := some "NewCo", phone_number := none, bio := none } 4
        "cccccccccccccccccccccc07"
      = update_profile janeStore uidA
          { job_title := none, company := some "NewCo", phone_number := none, bio := none } 4
          "cccccccccccccccccccccc07"
    ∧ ∃ p', (update_profile janeStore uidA
          { job_title := none, company := some "NewCo", phone_number := none, bio := none } 3
          "cccccccccccccccccccccc06").profiles.find?
            (fun p => p.user_id == uidA) = some p'
        ∧ (({ job_title := none, company := some "NewCo", phone_number := none, bio := none }
              : ProfileUpdate).job_title = none → p'.job_title = janeProfile.job_title)
        ∧ (({ job_title := none, company := some "NewCo", phone_number := none, bio := none }
              : ProfileUpdate).company = none → p'.company = janeProfile.company)
        ∧ (({ job_title := none, company := some "NewCo", phone_number := none, bio := none }
              : ProfileUpdate).phone_number = none → p'.phone_number = janeProfile.phone_number)
        ∧ (({ job_title := none, company := some "NewCo", phone_number := none, bio := none }
              : ProfileUpdate).bio = none → p'.bio = janeProfile.bio)
        ∧ p'.profile_image_path = janeProfile.profile_image_path :=
  update_profile_idempotent_frame janeStore uidA
    { job_title := none, company := some "NewCo", phone_number := none, bio := none } 3 4
    "cccccccccccccccccccccc06" "cccccccccccccccccccccc07" janeProfile
    (by decide) (by decide)

/-- Claim C3: after any profile update, a profile for the user exists
(created on first write), carries the operation's timestamp, every field
provided by the payload — empty string included — holds the provided value,
and, when a profile already existed, every field the payload left null keeps
its prior value. -/
theorem update_profile_partial_update_spec (s : Store) (uid : String)
    (payload : ProfileUpdate) (now : Nat) (fid : String)
    (hnd : (s.profiles.map (fun p => p.oid)).Nodup) :
    ∃ p', (update_profile s uid payload now fid).profiles.find?
        (fun p => p.user_id == uid) = some p'
      ∧ p'.updated_at = now
      ∧ (∀ v, payload.job_title = some v → p'.job_title = some v)
      ∧ (∀ v, payload.company = some v → p'.company = some v)
      ∧ (∀ v, payload.phone_number = some v → p'.phone_number = some v)
      ∧ (∀ v, payload.bio = some v → p'.bio = some v)
      ∧ (∀ old, s.profiles.find? (fun p => p.user_id == uid) = some old →
          (payload.job_title = none → p'.job_title = old.job_title)
          ∧ (payload.company = none → p'.company = old.company)
          ∧ (payload.phone_number = none → p'.phone_number = old.phone_number)
          ∧ (payload.bio = none → p'.bio = old.bio)
          ∧ p'.profile_image_path = old.profile_image_path)
      ∧ (s.profiles.find? (fun p => p.user_id == uid) = none →
          p'.user_id = uid ∧ p'.created_at = now
          ∧ p'.job_title = payload.job_title ∧ p'.company = payload.company
          ∧ p'.phone_number = payload.phone_number ∧ p'.bio = payload.bio) := by
  have hchar := update_profile_profiles_find? s uid payload now fid hnd
  cases h : s.profiles.find? (fun p => p.user_id == uid) with
  | some old =>
    rw [h] at hchar
    refine ⟨applySet payload now old, hchar, rfl, ?_, ?_, ?_, ?_, ?_, ?_⟩
    · intro v hv; simp [applySet, setField, hv]
    · intro v hv; simp [applySet, setField, hv]
    · intro v hv; simp [applySet, setField, hv]
    · intro v hv; simp [applySet, setField, hv]
    · intro old' hold'
      have he : old = old' := by injection hold'
      subst he
      refine ⟨?_, ?_, ?_, ?_, rfl⟩ <;> (intro hnone; simp [applySet, setField, hnone])
    · intro hnone; simp at hnone
  | none =>
    rw [h] at hchar
    refine ⟨newProfile uid payload now fid, hchar, rfl, ?_, ?_, ?_, ?_, ?_, ?_⟩
    · intro v hv; simp [newProfile, hv]
    · intro v hv; simp [newProfile, hv]
    · intro v hv; simp [newProfile, hv]
    · intro v hv; simp [newProfile, hv]
    · intro old' hold'; simp at hold'
    · intro _; exact ⟨rfl, rfl, rfl, rfl, rfl, rfl⟩

/-- Witness for C3: creating a profile on a store that has none. -/
theorem update_profile_partial_update_spec_witness :
    ∃ p', (update_profile noProfileStore uidB
        { job_title := some "", company := none, phone_number := none, bio := none } 9
        "cccccccccccccccccccccc08").profiles.find?
        (fun p => p.user_id == uidB) = some p'
      ∧ p'.updated_at = 9
      ∧ (∀ v, ({ job_title := some "", company := none, phone_number := none, bio := none }
            : ProfileUpdate).job_title = some v → p'.job_title = some v)
      ∧ (∀ v, ({ job_title := some "", company := none, phone_number := none, bio := none }
            : ProfileUpdate).company = some v → p'.company = some v)
      ∧ (∀ v, ({ job_title := some "", company := none, phone_number := none, bio := none }
            : ProfileUpdate).phone_number = some v → p'.phone_number = some v)
      ∧ (∀ v, ({ job_title := some "", company := none, phone_number := none, bio := none }
            : ProfileUpdate).bio = some v → p'.bio = some v)
      ∧ (∀ old, noProfileStore.profiles.find? (fun p => p.user_id == uidB) = some old →
          (({ job_title := some "", company := none, phone_number := none, bio := none }
              : ProfileUpdate).job_title = none → p'.job_title = old.job_title)
          ∧ (({ job_title := some "", company := none, phone_number := none, bio := none }
              : ProfileUpdate).company = none → p'.company = old.company)
          ∧ (({ job_title := some "", company := none, phone_number := none, bio := none }
              : ProfileUpdate).phone_number = none → p'.phone_number = old.phone_number)
          ∧ (({ job_title := some "", company := none, phone_number := none, bio := none }
              : ProfileUpdate).bio = none → p'.bio = old.bio)
          ∧ p'.profile_image_path = old.profile_image_path)
      ∧ (noProfileStore.profiles.find? (fun p => p.user_id == uidB) = none →
          p'.user_id = uidB ∧ p'.created_at = 9
          ∧ p'.job_title = ({ job_title := some "", company := none, phone_number := none
                              bio := none } : ProfileUpdate).job_title
          ∧ p'.company = ({ job_title := some "", company := none, phone_number := none
                            bio := none } : ProfileUpdate).company
          ∧ p'.phone_number = ({ job_title := some "", company := none, phone_number := none
                                 bio := none } : ProfileUpdate).phone_number
          ∧ p'.bio = ({ job_title := some "", company := none, phone_number := none
                        bio := none } : ProfileUpdate).bio) :=
  update_profile_partial_update_spec noProfileStore uidB
    { job_title := some "", company := none, phone_number := none, bio := none } 9
    "cccccccccccccccccccccc08" (by decide)

end DBC
